import Mathlib

/-!
Shallow embedding of the plimsoll query layer (src/plimsoll.js) and proofs
about its criteria compiler, mutation compiler, deferred query builder,
populate step, interceptor dispatch and connection handling.
-/

set_option maxHeartbeats 1000000

namespace Plimsoll

/-- JS scalar values that appear in criteria and property maps. -/
inductive Scalar
  | str (s : String)
  | num (n : Int)
  | bool (b : Bool)
  deriving DecidableEq, Repr

/-- Bound statement arguments and property values.  `nowMark` embeds the NOW
sentinel of src/plimsoll.js line 10, compared by reference in resolveNow;
`jsonText v` embeds the JSON.stringify of `v` pushed by buildSetQuery for
json-typed attributes; `undef` embeds the JS undefined pushed by
buildValuesQuery when a property is missing; `null` embeds JS null. -/
inductive Arg
  | scalar (v : Scalar)
  | arr (vs : List Scalar)
  | null
  | undef
  | nowMark
  | jsonText (v : Arg)
  deriving DecidableEq, Repr

/-- Errors raised synchronously by the compiler layer.  `invalidCriteria`
embeds the thrown Error for a multi-key operator mapping (line 304),
`unsupportedOp` the thrown Error of safeOp (line 393), `typeError` the JS
TypeError of reading `.type` of an undeclared attribute (line 275),
`limitNotInteger` the thrown Error of the limit modifier (line 76). -/
inductive JsError
  | invalidCriteria (key : String)
  | unsupportedOp (op : String)
  | typeError
  | limitNotInteger
  deriving DecidableEq, Repr

/-- The value paired with an operator key inside an operator mapping. -/
inductive OpVal
  | null
  | scalar (v : Scalar)
  | seq (vs : List Scalar)
  deriving DecidableEq, Repr

/-- The value paired with a column key in a mapping-form criteria. -/
inductive CritVal
  | null
  | scalar (v : Scalar)
  | seq (vs : List Scalar)
  | opMap (pairs : List (String × OpVal))
  deriving DecidableEq, Repr

/-- A criteria as accepted by buildWhereQuery (line 286): absent (falsy), a
plain scalar (primary-key shorthand), or a mapping from column names to
criteria values. -/
inductive Criteria
  | absent
  | scalar (v : Scalar)
  | mapping (pairs : List (String × CritVal))
  deriving DecidableEq, Repr

/-- Identifier escaping (pg-format ident, line 5).  Quoting is elided in this
model: identifiers are used verbatim, which does not change clause shape. -/
def escCol (c : String) : String := c

/-- Table-name escaping (pg-format ident, line 7), likewise elided. -/
def escTable (t : String) : String := t

/-- Embeds safeOp (lines 385-395): the five comparison operators pass through,
every other operator throws. -/
def safeOp (op : String) : Except JsError String :=
  if op = "<" then Except.ok op
  else if op = ">" then Except.ok op
  else if op = "<=" then Except.ok op
  else if op = ">=" then Except.ok op
  else if op = "!=" then Except.ok op
  else Except.error (JsError.unsupportedOp op)

/-- Embeds the single-key operator-mapping branch of buildWhereQuery
(lines 306-318): not-equal with null gives IS NOT NULL, not-equal with a
sequence gives a negated membership test, and any other combination goes
through safeOp with the value bound as the next positional parameter. -/
def compileOpPair (k : String) (op : String) (val : OpVal) (args : List Arg) :
    Except JsError (String × List Arg) :=
  match val with
  | OpVal.null =>
      if op = "!=" then Except.ok (escCol k ++ " IS NOT NULL", args)
      else
        match safeOp op with
        | Except.error e => Except.error e
        | Except.ok o =>
            let args2 := args ++ [Arg.null]
            Except.ok (escCol k ++ o ++ "$" ++ toString args2.length, args2)
  | OpVal.seq vs =>
      if op = "!=" then
        let args2 := args ++ [Arg.arr vs]
        Except.ok ("NOT ( " ++ escCol k ++ " = ANY( $" ++ toString args2.length ++ " ) )", args2)
      else
        match safeOp op with
        | Except.error e => Except.error e
        | Except.ok o =>
            let args2 := args ++ [Arg.arr vs]
            Except.ok (escCol k ++ o ++ "$" ++ toString args2.length, args2)
  | OpVal.scalar v =>
      match safeOp op with
      | Except.error e => Except.error e
      | Except.ok o =>
          let args2 := args ++ [Arg.scalar v]
          Except.ok (escCol k ++ o ++ "$" ++ toString args2.length, args2)

/-- Embeds one key/value pair of a mapping-form criteria (lines 296-324):
null gives IS NULL, a sequence binds one array parameter in a membership test,
an operator mapping must have exactly one key, and a plain scalar becomes an
equality against the next positional parameter. -/
def compileWherePair (k : String) (v : CritVal) (args : List Arg) :
    Except JsError (String × List Arg) :=
  match v with
  | CritVal.null => Except.ok (escCol k ++ " IS NULL", args)
  | CritVal.seq vs =>
      let args2 := args ++ [Arg.arr vs]
      Except.ok (escCol k ++ "=ANY($" ++ toString args2.length ++ ")", args2)
  | CritVal.opMap pairs =>
      match pairs with
      | [(op, val)] => compileOpPair k op val args
      | _ => Except.error (JsError.invalidCriteria k)
  | CritVal.scalar v =>
      let args2 := args ++ [Arg.scalar v]
      Except.ok (escCol k ++ "=$" ++ toString args2.length, args2)

/-- Folds compileWherePair over the entries of a mapping-form criteria,
threading the argument accumulator, as the forEach of lines 295-324 does. -/
def buildWherePairs (pairs : List (String × CritVal)) (args : List Arg) :
    Except JsError (List String × List Arg) :=
  match pairs with
  | [] => Except.ok ([], args)
  | p :: rest =>
      match compileWherePair p.1 p.2 args with
      | Except.error e => Except.error e
      | Except.ok (w, args2) =>
          match buildWherePairs rest args2 with
          | Except.error e => Except.error e
          | Except.ok (ws, args3) => Except.ok (w :: ws, args3)

/-- Embeds buildWhereQuery (lines 286-335): absent criteria and empty mappings
compile to the empty fragment, non-mapping criteria are primary-key shorthand,
and mapping clauses are joined with AND. -/
def buildWhereQuery (criteria : Criteria) (args : List Arg) :
    Except JsError (String × List Arg) :=
  match criteria with
  | Criteria.absent => Except.ok ("", args)
  | Criteria.mapping pairs =>
      match buildWherePairs pairs args with
      | Except.error e => Except.error e
      | Except.ok (wher, args2) =>
          if wher.isEmpty then Except.ok ("", args2)
          else Except.ok ("WHERE " ++ String.intercalate " AND " wher, args2)
  | Criteria.scalar v =>
      let args2 := args ++ [Arg.scalar v]
      Except.ok ("WHERE id=$" ++ toString args2.length, args2)

/-- One attribute's configuration, as consumed by withDefaultValues,
buildSetQuery and withSelectedValuesCast.  `model` is the relation target of
a populate-able attribute. -/
structure AttrSpec where
  type : String := ""
  allowNull : Bool := false
  defaultsTo : Option Arg := none
  autoIncrement : Bool := false
  autoCreatedAt : Bool := false
  autoUpdatedAt : Bool := false
  model : Option String := none
  deriving DecidableEq, Repr

/-- JS property read `props[k]`: the value of the first entry named k, or
undefined (none) when the key is missing. -/
def lookupProp (props : List (String × Arg)) (k : String) : Option Arg :=
  (props.find? (fun p => p.1 = k)).map Prod.snd

/-- JS property write `props[k] = v`: replace the value in place when the key
exists, otherwise append the key at the end (JS key insertion order). -/
def setProp (props : List (String × Arg)) (k : String) (v : Arg) : List (String × Arg) :=
  if props.any (fun p => p.1 = k) then
    props.map (fun p => if p.1 = k then (k, v) else p)
  else props ++ [(k, v)]

/-- Attribute lookup on a model's attribute mapping. -/
def lookupAttr (attrs : List (String × AttrSpec)) (k : String) : Option AttrSpec :=
  (attrs.find? (fun p => p.1 = k)).map Prod.snd

/-- One iteration of the withDefaultValues loop (lines 445-475) for a single
declared attribute: apply defaultsTo when creating and absent, then fill
auto-timestamps with the NOW sentinel or, for non-nullable plain types, the
type's zero value. -/
def applyDefaultFor (creating : Bool) (props : List (String × Arg)) (attr : String)
    (cfg : AttrSpec) : List (String × Arg) :=
  let props1 :=
    if creating ∧ lookupProp props attr = none then
      match cfg.defaultsTo with
      | some d => setProp props attr d
      | none => props
    else props
  if (creating ∧ lookupProp props1 attr = none) ∨ lookupProp props1 attr = some Arg.null then
    if cfg.autoCreatedAt then
      if creating then setProp props1 attr Arg.nowMark else props1
    else if cfg.autoUpdatedAt then
      setProp props1 attr Arg.nowMark
    else if !cfg.allowNull then
      if cfg.type = "string" then setProp props1 attr (Arg.scalar (Scalar.str ""))
      else if cfg.type = "number" then setProp props1 attr (Arg.scalar (Scalar.num 0))
      else if cfg.type = "boolean" then setProp props1 attr (Arg.scalar (Scalar.bool false))
      else props1
    else props1
  else props1

/-- Embeds withDefaultValues (lines 440-479): iterate the model's declared
attributes in order, mutating the property map. -/
def withDefaultValues (attributes : List (String × AttrSpec)) (props : List (String × Arg))
    (creating : Bool) : List (String × Arg) :=
  attributes.foldl (fun ps a => applyDefaultFor creating ps a.1 a.2) props

/-- Embeds the loop body of buildSetQuery (lines 269-284): for each property,
json-typed values are serialized to text before binding, every value is pushed
as the next positional parameter, and the assignments are collected in order.
Reading the type of an undeclared attribute is the JS TypeError. -/
def buildSetEntries (attrs : List (String × AttrSpec)) (props : List (String × Arg))
    (values : List Arg) : Except JsError (List String × List Arg) :=
  match props with
  | [] => Except.ok ([], values)
  | (k, v) :: rest =>
      match lookupAttr attrs k with
      | none => Except.error JsError.typeError
      | some cfg =>
          let v2 := if cfg.type = "json" then Arg.jsonText v else v
          let values2 := values ++ [v2]
          match buildSetEntries attrs rest values2 with
          | Except.error e => Except.error e
          | Except.ok (sets, values3) =>
              Except.ok ((escCol k ++ " = $" ++ toString values2.length) :: sets, values3)

/-- Embeds buildSetQuery (lines 269-284): the comma-join of the collected
assignments, together with the extended argument list. -/
def buildSetQuery (attrs : List (String × AttrSpec)) (props : List (String × Arg))
    (values : List Arg) : Except JsError (String × List Arg) :=
  match buildSetEntries attrs props values with
  | Except.error e => Except.error e
  | Except.ok (sets, values2) => Except.ok (String.intercalate ", " sets, values2)

/-- What Model.update(criteria).set(props) / updateOne(criteria).set(props)
return: when the SET fragment is empty the bare string TODO (line 234 and
line 253) — a value with no then, fetch or usingConnection — otherwise a
builder for the UPDATE statement. -/
inductive SetResult
  | todo
  | builder (sql : String) (args : List Arg) (single : Bool) (fetch : Bool)
  deriving DecidableEq, Repr

/-- Embeds Model.update(criteria).set(props) (lines 228-243). -/
def updateSet (attrs : List (String × AttrSpec)) (tableName : String) (criteria : Criteria)
    (props : List (String × Arg)) : Except JsError SetResult :=
  let props2 := withDefaultValues attrs props false
  match buildSetQuery attrs props2 [] with
  | Except.error e => Except.error e
  | Except.ok (setQuery, args) =>
      if setQuery = "" then Except.ok SetResult.todo
      else
        match buildWhereQuery criteria args with
        | Except.error e => Except.error e
        | Except.ok (wher, args2) =>
            Except.ok (SetResult.builder
              ("UPDATE " ++ escTable tableName ++ " SET " ++ setQuery ++ " " ++ wher)
              args2 false false)

/-- Embeds Model.updateOne(criteria).set(props) (lines 244-265): the criteria
compile into a nested id subselect, and the builder carries single and fetch. -/
def updateOneSet (attrs : List (String × AttrSpec)) (tableName : String) (criteria : Criteria)
    (props : List (String × Arg)) : Except JsError SetResult :=
  let props2 := withDefaultValues attrs props false
  match buildSetQuery attrs props2 [] with
  | Except.error e => Except.error e
  | Except.ok (setQuery, args) =>
      if setQuery = "" then Except.ok SetResult.todo
      else
        match buildWhereQuery criteria args with
        | Except.error e => Except.error e
        | Except.ok (wher, args2) =>
            Except.ok (SetResult.builder
              ("UPDATE " ++ escTable tableName ++ " SET " ++ setQuery
                ++ " WHERE id = ( SELECT id FROM " ++ escTable tableName ++ " " ++ wher ++ " )")
              args2 true true)

/-- Embeds buildValuesQuery (lines 337-347): push each column's property value
(undefined when missing) and emit its positional placeholder. -/
def buildValuesQuery (cols : List String) (props : List (String × Arg))
    (values : List Arg) : String × List Arg :=
  let step := fun (acc : List String × List Arg) (k : String) =>
    let v := (lookupProp props k).getD Arg.undef
    let values2 := acc.2 ++ [v]
    (acc.1 ++ ["$" ++ toString values2.length], values2)
  let (q, values2) := cols.foldl step ([], values)
  ("(" ++ String.intercalate ", " q ++ ")", values2)

/-- What Model.createEach returns: for an empty list the early-return stub
object of lines 178-186 (no statement is built), otherwise a builder for one
multi-row INSERT. -/
inductive CreateEachResult
  | emptyStub
  | builder (sql : String) (args : List Arg)
  deriving DecidableEq, Repr

/-- Embeds Model.createEach (lines 175-199): apply creation defaults to every
row, return the stub for an empty list, else take the first row's columns and
emit one INSERT with one VALUES tuple per row sharing one argument list.
Whitespace of the SQL template is normalized to single spaces. -/
def createEach (attrs : List (String × AttrSpec)) (tableName : String)
    (propses : List (List (String × Arg))) : CreateEachResult :=
  let propses2 := propses.map (fun props => withDefaultValues attrs props true)
  match propses2 with
  | [] => CreateEachResult.emptyStub
  | first :: _ =>
      let cols := first.map Prod.fst
      let step := fun (acc : List String × List Arg) (props : List (String × Arg)) =>
        let (q, values2) := buildValuesQuery cols props acc.2
        (acc.1 ++ [q], values2)
      let (tuples, values) := propses2.foldl step ([], [])
      CreateEachResult.builder
        ("INSERT INTO " ++ escTable tableName ++ " ( "
          ++ String.intercalate ", " (cols.map escCol)
          ++ " ) VALUES " ++ String.intercalate ", " tuples)
        values

/-- Field names of the object returned by createEach for an empty list
(lines 179-185): it carries fetch and usingConnection but no then. -/
def emptyCreatorFields : List String := ["fetch", "usingConnection"]

/-- Field names of the object returned by the empty creator's fetch()
(lines 180-183): usingConnection and then. -/
def emptyCreatorFetchFields : List String := ["usingConnection", "then"]

/-- Calling usingConnection() on the empty creator (line 184): the arrow
function has an empty body, so it returns undefined, not a builder or a
list (modelled as none). -/
def emptyCreatorUsingConnection : Option (List Arg) := none

/-- The value the empty creator's fetch().then resolves with (line 182). -/
def emptyCreatorFetchResolvesTo : List Arg := []

/-- usingConnection() on the fetch() object returns the empty list (line 181). -/
def emptyCreatorFetchUsingConnection : List Arg := []

/-- Embeds Model.destroy (line 200): the source is a stub arrow function with
an empty body, so destroy ignores its criteria, issues no DELETE statement and
returns undefined (modelled as none). -/
def destroy (_criteria : Criteria) : Option (String × List Arg) := none

/-- A registered model.  globalId and tableName are set by initialiseModel. -/
structure ModelDef where
  globalId : String
  tableName : String
  attributes : List (String × AttrSpec)
  deriving DecidableEq, Repr

/-- JS object spread of two string-keyed attribute maps: keys of the first
operand keep their position (values overridden by the second operand when the
key recurs there), keys only in the second operand are appended in order. -/
def spreadMerge (defaults own : List (String × AttrSpec)) : List (String × AttrSpec) :=
  defaults.map (fun p =>
    match lookupAttr own p.1 with
    | some v => (p.1, v)
    | none => p)
  ++ own.filter (fun p => lookupAttr defaults p.1 = none)

/-- Embeds initialiseModel (lines 159-163): globalId is the registry name,
tableName its lower-casing, and the attributes are the global defaults
spread-merged with the model's own declared attributes. -/
def initialiseModel (defaults : List (String × AttrSpec)) (name : String)
    (own : List (String × AttrSpec)) : ModelDef :=
  { globalId := name
    tableName := name.toLower
    attributes := spreadMerge defaults own }

/-- The NOW sentinel (line 10), compared by reference in then(). -/
def NOW : Arg := Arg.nowMark

/-- Embeds the timestamp substitution of then() (lines 99-104): at execution
time one timestamp is captured and every argument that is the NOW sentinel is
replaced by it, so all markers of one statement resolve identically. -/
def resolveNow (now : Int) (args : List Arg) : List Arg :=
  args.map (fun it => if it = NOW then Arg.scalar (Scalar.num now) else it)

/-- A row of a populate-target table: its primary key and remaining fields. -/
structure TargetRow where
  id : Int
  fields : List (String × Arg)
  deriving DecidableEq, Repr

/-- A follow-up statement issued by the populate step, with its bound key
argument(s).  byId is the single-row SELECT ... WHERE id equals one parameter;
byMembership the multi-row SELECT ... WHERE id is any of one array parameter. -/
inductive FollowUp
  | byId (table : String) (key : Option Int)
  | byMembership (table : String) (keys : List (Option Int))
  deriving DecidableEq, Repr

/-- Embeds the single-row populate branch of then() (lines 114-119): the code
always issues the follow-up lookup, binding the foreign-key value even when it
is null, and takes the first fetched row (none when the key matched nothing;
an SQL equality against null matches no row). -/
def populateSingle (table : String) (targetDb : List TargetRow) (fk : Option Int) :
    List FollowUp × Option TargetRow :=
  ([FollowUp.byId table fk],
   (targetDb.filter (fun row => some row.id = fk)).head?)

/-- Embeds the multi-row populate branch of then() (lines 125-133): the bound
key list is the result rows' foreign keys taken verbatim (nulls and duplicates
included); the membership test fetches rows whose id is among the non-null
keys; each result row is then merged with the first fetched row whose id
strictly equals its foreign key. -/
def populateMulti (table : String) (targetDb : List TargetRow) (fks : List (Option Int)) :
    List FollowUp × List (Option TargetRow) :=
  let fetched := targetDb.filter (fun row => fks.contains (some row.id))
  ([FollowUp.byMembership table fks],
   fks.map (fun fk => fetched.find? (fun row => fk = some row.id)))

/-- A caught execution error or a rejection value. -/
inductive ErrVal
  | native (code : Nat)
  | str (s : String)
  | num (n : Int)
  deriving DecidableEq, Repr

/-- A registered interceptor handler: a function, or a literal JS value. -/
inductive Handler
  | hfun (f : ErrVal → ErrVal)
  | hstr (s : String)
  | hnum (n : Int)
  | hbool (b : Bool)
  | hnull

/-- JS truthiness of a handler value: functions and non-empty strings are
truthy, the empty string, zero, false and null are falsy. -/
def Handler.truthy : Handler → Bool
  | Handler.hfun _ => true
  | Handler.hstr s => decide (s ≠ "")
  | Handler.hnum n => decide (n ≠ 0)
  | Handler.hbool b => b
  | Handler.hnull => false

/-- How the failure path settles: a rejection with a value, or the thrown
Error for an unsupported interceptor shape (line 149). -/
inductive Outcome
  | rejected (v : ErrVal)
  | thrownNotImplemented
  deriving DecidableEq, Repr

/-- The handler registered for a native error code, if any. -/
def lookupHandler (handlers : List (Nat × Handler)) (code : Nat) : Option Handler :=
  (handlers.find? (fun p => p.1 = code)).map Prod.snd

/-- Embeds the catch block of then() (lines 139-150): an absent or falsy
handler rejects with the original error; a function handler rejects with its
return value; a string handler rejects with the string itself; anything else
throws the NotImplemented error. -/
def interceptDispatch (handlers : List (Nat × Handler)) (code : Nat) (err : ErrVal) :
    Outcome :=
  match lookupHandler handlers code with
  | none => Outcome.rejected err
  | some h =>
      if !h.truthy then Outcome.rejected err
      else
        match h with
        | Handler.hfun f => Outcome.rejected (f err)
        | Handler.hstr s => Outcome.rejected (ErrVal.str s)
        | _ => Outcome.thrownNotImplemented

/-- Embeds getErrorCodesFor (lines 378-383): E_UNIQUE maps to the native
uniqueness-violation code, every other symbolic kind to no codes. -/
def getErrorCodesFor (name : String) : List Nat :=
  if name = "E_UNIQUE" then [23505] else []

/-- JS map write for the interceptor table (line 69). -/
def setHandler (handlers : List (Nat × Handler)) (code : Nat) (h : Handler) :
    List (Nat × Handler) :=
  if handlers.any (fun p => p.1 = code) then
    handlers.map (fun p => if p.1 = code then (code, h) else p)
  else handlers ++ [(code, h)]

/-- Embeds the intercept modifier (lines 66-72): register the handler under
every native code the symbolic kind resolves to. -/
def intercept (handlers : List (Nat × Handler)) (errName : String) (h : Handler) :
    List (Nat × Handler) :=
  (getErrorCodesFor errName).foldl (fun m code => setHandler m code h) handlers

/-- A JS number passed to the limit modifier: an integer, or any non-integer
number (NaN, infinities, fractional values), for which isSafeInteger is false. -/
inductive JsNumber
  | int (n : Int)
  | nonInt
  deriving DecidableEq, Repr

/-- Number.isSafeInteger: an integer whose magnitude is at most 2^53 - 1. -/
def isSafeInteger : JsNumber → Bool
  | JsNumber.int n => decide (n.natAbs ≤ 2 ^ 53 - 1)
  | JsNumber.nonInt => false

/-- The builder options touched by the limit modifier. -/
structure QueryOpts where
  limit : Option JsNumber := none
  deriving DecidableEq, Repr

/-- Embeds the limit modifier (lines 74-80): any value failing
Number.isSafeInteger throws; every safe integer, negative ones included, is
stored. -/
def limitModifier (opts : QueryOpts) (n : JsNumber) : Except JsError QueryOpts :=
  if !isSafeInteger n then Except.error JsError.limitNotInteger
  else Except.ok { opts with limit := some n }

/-- Observable pool/connection events of one forced execution. -/
inductive ConnEvent
  | poolConnect
  | query
  | settle (ok : Bool)
  | release
  deriving DecidableEq, Repr

/-- Embeds the connection handling of then() (lines 106-155): the client is
the bound connection when usingConnection supplied one, else a fresh pool
lease; the statement runs and settles (resolve or reject); the finally block
releases the client only when it was leased, on every path. -/
def runWithConnection (boundClient : Option Nat) (queryFails : Bool) : List ConnEvent :=
  let acquire :=
    match boundClient with
    | some _ => ([] : List ConnEvent)
    | none => [ConnEvent.poolConnect]
  let body := [ConnEvent.query, ConnEvent.settle (!queryFails)]
  let fin :=
    match boundClient with
    | some _ => ([] : List ConnEvent)
    | none => [ConnEvent.release]
  acquire ++ body ++ fin

/-- The Simple test model of the repository's test suite. -/
def simpleAttrs : List (String × AttrSpec) :=
  [("id", { type := "number", autoIncrement := true }),
   ("name", { type := "string" })]

/-- The Audited test model of the repository's test suite: two autoCreatedAt
and two autoUpdatedAt attributes. -/
def auditedAttrs : List (String × AttrSpec) :=
  [("id", { type := "number", autoIncrement := true }),
   ("name", { type := "string" }),
   ("created_at", { type := "number", autoCreatedAt := true }),
   ("inserted_at", { type := "number", autoCreatedAt := true }),
   ("updated_at", { type := "number", autoUpdatedAt := true }),
   ("_set_at", { type := "number", autoUpdatedAt := true })]

/-- The argument list built by a two-row createEach on the Audited model. -/
def auditedCreateValues : List Arg :=
  match createEach auditedAttrs "audited"
      [[("name", Arg.scalar (Scalar.str "alice"))],
       [("name", Arg.scalar (Scalar.str "bob"))]] with
  | CreateEachResult.builder _ vs => vs
  | CreateEachResult.emptyStub => []

/-! ## Helper lemmas -/

theorem lookupAttr_cons (p : String × AttrSpec) (l : List (String × AttrSpec)) (k : String) :
    lookupAttr (p :: l) k = if p.1 = k then some p.2 else lookupAttr l k := by
  by_cases h : p.1 = k
  · simp [lookupAttr, h]
  · simp [lookupAttr, h]

theorem lookupAttr_append (a b : List (String × AttrSpec)) (k : String) :
    lookupAttr (a ++ b) k =
      match lookupAttr a k with
      | some v => some v
      | none => lookupAttr b k := by
  unfold lookupAttr
  rw [List.find?_append]
  cases h : a.find? (fun p => p.1 = k) <;> simp [h, Option.or]

theorem lookupAttr_mergeMap (o l : List (String × AttrSpec)) (k : String) :
    lookupAttr
        (l.map (fun p =>
          match lookupAttr o p.1 with
          | some v => (p.1, v)
          | none => p)) k
      = match lookupAttr l k with
        | some v => some ((lookupAttr o k).getD v)
        | none => none := by
  induction l with
  | nil => rfl
  | cons p l ih =>
      rw [List.map_cons, lookupAttr_cons, lookupAttr_cons]
      have hfst : (match lookupAttr o p.1 with
                   | some v => (p.1, v)
                   | none => p).1 = p.1 := by
        cases lookupAttr o p.1 <;> rfl
      rw [hfst]
      by_cases h : p.1 = k
      · subst h
        cases ho : lookupAttr o p.1 <;> simp [ho]
      · simp [h, ih]

theorem lookupAttr_filter_none (d o : List (String × AttrSpec)) (k : String) :
    lookupAttr (o.filter (fun p => lookupAttr d p.1 = none)) k =
      if lookupAttr d k = none then lookupAttr o k else none := by
  induction o with
  | nil =>
      cases h : lookupAttr d k <;> simp [lookupAttr, h]
  | cons p o ih =>
      by_cases hd : lookupAttr d p.1 = none
      · rw [List.filter_cons_of_pos (by simpa using hd), lookupAttr_cons, lookupAttr_cons]
        by_cases hk : p.1 = k
        · subst hk
          simp [hd]
        · simp [hk, ih]
      · rw [List.filter_cons_of_neg (by simpa using hd)]
        by_cases hk : p.1 = k
        · subst hk
          rw [ih, lookupAttr_cons]
          simp [hd]
        · rw [ih, lookupAttr_cons]
          simp [hk]

/-! ## Claim theorems -/

/-- Claim C9: for a model initialised in a registry with global default
attributes, looking up any attribute name on the initialised model yields the
model's own declared spec when one exists (the model's spec completely
replaces the global one) and otherwise the global default spec (defaults not
declared on the model are added). -/
theorem model_attribute_merge (defaults : List (String × AttrSpec)) (name : String)
    (own : List (String × AttrSpec)) (k : String) :
    lookupAttr (initialiseModel defaults name own).attributes k =
      match lookupAttr own k with
      | some v => some v
      | none => lookupAttr defaults k := by
  show lookupAttr (spreadMerge defaults own) k = _
  unfold spreadMerge
  rw [lookupAttr_append, lookupAttr_mergeMap, lookupAttr_filter_none]
  cases hd : lookupAttr defaults k <;> cases ho : lookupAttr own k <;> simp [hd, ho]

/-- Claim C6 (code bug): absent criteria and empty-mapping criteria both
compile to the empty WHERE fragment (whole-table scope, as find uses it), but
Model.destroy is a stub arrow function with an empty body — it compiles and
issues no DELETE statement at all, so destroy does not delete every row. -/
theorem empty_criteria_whole_table_and_destroy_stub :
    (∀ args, buildWhereQuery Criteria.absent args = Except.ok ("", args))
    ∧ (∀ args, buildWhereQuery (Criteria.mapping []) args = Except.ok ("", args))
    ∧ (∀ c, destroy c = none) :=
  ⟨fun _ => rfl, fun _ => rfl, fun _ => rfl⟩

/-- Claim C1 (code bug): update(criteria).set and updateOne(criteria).set on an
empty property map do not build a query object — they return the bare TODO
string (SetResult.todo), a value carrying no then, fetch, populate or
usingConnection, so the claimed no-op update honoring fetch cannot happen. -/
theorem update_set_empty_returns_todo :
    updateSet simpleAttrs "simple" (Criteria.scalar (Scalar.num (-1))) [] =
      Except.ok SetResult.todo
    ∧ updateOneSet simpleAttrs "simple" (Criteria.scalar (Scalar.num (-1))) [] =
      Except.ok SetResult.todo
    ∧ updateSet auditedAttrs "audited"
        (Criteria.mapping [("name", CritVal.scalar (Scalar.str "alice"))]) [] =
      Except.ok SetResult.todo
    ∧ updateOneSet auditedAttrs "audited" (Criteria.mapping []) [] =
      Except.ok SetResult.todo :=
  ⟨rfl, rfl, rfl, rfl⟩

/-- Claim C10 (code bug): createEach on an empty list issues no INSERT and
returns the early stub, but the stub exposes only fetch and usingConnection —
it has no then field, so awaiting it directly does not resolve to an empty
list, and its usingConnection() returns undefined; only the fetch() object is
thenable and resolves to the empty list. -/
theorem createEach_empty_stub :
    createEach simpleAttrs "simple" [] = CreateEachResult.emptyStub
    ∧ ¬ ("then" ∈ emptyCreatorFields)
    ∧ emptyCreatorUsingConnection = none
    ∧ "then" ∈ emptyCreatorFetchFields
    ∧ emptyCreatorFetchResolvesTo = ([] : List Arg)
    ∧ emptyCreatorFetchUsingConnection = ([] : List Arg) :=
  ⟨rfl, by decide, rfl, by decide, rfl, rfl⟩

/-- Claim C5 counterexample: the limit modifier accepts the negative safe
integer -5 and stores it, because Number.isSafeInteger is true there — no
InvalidArgument is raised, refuting the claim that limit requires a
non-negative integer. -/
theorem limit_negative_accepted :
    limitModifier {} (JsNumber.int (-5)) =
      Except.ok { limit := some (JsNumber.int (-5)) } := rfl

/-- Claim C5 amended: limit(n) succeeds (storing n) exactly when n is a safe
integer of either sign, and fails with the InvalidArgument error when n is not
a safe integer (not an integer, or of magnitude above 2^53 - 1). -/
theorem limit_safe_integer_iff :
    (∀ (o : QueryOpts) (n : JsNumber),
        (limitModifier o n = Except.ok { o with limit := some n })
          ↔ isSafeInteger n = true)
    ∧ (∀ (o : QueryOpts) (n : JsNumber), isSafeInteger n = false →
        limitModifier o n = Except.error JsError.limitNotInteger) := by
  constructor
  · intro o n
    unfold limitModifier
    cases h : isSafeInteger n <;> simp [h]
  · intro o n h
    unfold limitModifier
    simp [h]

/-- Claim C5 amended, witness: a non-integer number is rejected. -/
theorem limit_safe_integer_iff_witness :
    limitModifier ({} : QueryOpts) JsNumber.nonInt = Except.error JsError.limitNotInteger :=
  limit_safe_integer_iff.2 {} JsNumber.nonInt rfl

/-- Claim C3: at execution time every NOW marker in one statement's argument
list resolves to the single timestamp captured then (any two marker positions
agree), while two executions at different instants can resolve differently;
concretely, a two-row createEach on the Audited model produces eight markers
that all resolve to the one statement timestamp. -/
theorem pending_timestamps_per_statement :
    (∀ (now : Int) (args : List Arg) (i j : Nat),
        args.get? i = some Arg.nowMark → args.get? j = some Arg.nowMark →
        (resolveNow now args).get? i = some (Arg.scalar (Scalar.num now))
          ∧ (resolveNow now args).get? i = (resolveNow now args).get? j)
    ∧ (∃ (t1 t2 : Int) (args : List Arg),
        t1 ≠ t2 ∧ resolveNow t1 args ≠ resolveNow t2 args)
    ∧ (∃ sql, createEach auditedAttrs "audited"
          [[("name", Arg.scalar (Scalar.str "alice"))],
           [("name", Arg.scalar (Scalar.str "bob"))]]
        = CreateEachResult.builder sql auditedCreateValues)
    ∧ resolveNow 7 auditedCreateValues =
        [Arg.scalar (Scalar.str "alice"), Arg.scalar (Scalar.num 0),
         Arg.scalar (Scalar.num 7), Arg.scalar (Scalar.num 7),
         Arg.scalar (Scalar.num 7), Arg.scalar (Scalar.num 7),
         Arg.scalar (Scalar.str "bob"), Arg.scalar (Scalar.num 0),
         Arg.scalar (Scalar.num 7), Arg.scalar (Scalar.num 7),
         Arg.scalar (Scalar.num 7), Arg.scalar (Scalar.num 7)] := by
  have hmap : ∀ (now : Int) (args : List Arg) (m : Nat),
      args.get? m = some Arg.nowMark →
      (resolveNow now args).get? m = some (Arg.scalar (Scalar.num now)) := by
    intro now args m hm
    unfold resolveNow
    rw [List.get?_map, hm]
    simp [NOW]
  refine ⟨?_, ⟨0, 1, [Arg.nowMark], by decide, by decide⟩, ⟨_, rfl⟩, by decide⟩
  intro now args i j hi hj
  exact ⟨hmap now args i hi, by rw [hmap now args i hi, hmap now args j hj]⟩

/-- Claim C3, witness: both markers of a concrete three-argument list resolve
to the one captured timestamp. -/
theorem pending_timestamps_per_statement_witness :
    (resolveNow 5 [Arg.nowMark, Arg.scalar (Scalar.num 1), Arg.nowMark]).get? 0 =
        some (Arg.scalar (Scalar.num 5))
    ∧ (resolveNow 5 [Arg.nowMark, Arg.scalar (Scalar.num 1), Arg.nowMark]).get? 0 =
        (resolveNow 5 [Arg.nowMark, Arg.scalar (Scalar.num 1), Arg.nowMark]).get? 2 :=
  pending_timestamps_per_statement.1 5
    [Arg.nowMark, Arg.scalar (Scalar.num 1), Arg.nowMark] 0 2 rfl rfl

/-- Claim C2 counterexample: in single-row mode a null foreign key still makes
the code issue a follow-up lookup (binding null), and in multi-row mode the
membership lookup binds the foreign keys verbatim — nulls and duplicates
included — refuting the claimed no-lookup and distinct-non-null behaviour. -/
theorem populate_null_fk_lookup_cex :
    (populateSingle "simple" [] none).1 = [FollowUp.byId "simple" none]
    ∧ (populateSingle "simple" [] none).1 ≠ []
    ∧ (populateMulti "simple" [TargetRow.mk 1 []] [some 1, none, some 1]).1 =
        [FollowUp.byMembership "simple" [some 1, none, some 1]] :=
  ⟨rfl, by decide, rfl⟩

/-- Claim C2 amended: populate always issues its follow-up lookup — in
single-row mode one equality lookup keyed by the foreign key even when it is
null (matching no row, so the populated field becomes absent), in multi-row
mode one membership lookup over the rows' foreign keys taken verbatim — and
every result row whose foreign key is null receives an absent populated value,
never an error or a fetched row. -/
theorem populate_null_fk_absent :
    (∀ (table : String) (db : List TargetRow),
        populateSingle table db none = ([FollowUp.byId table none], none))
    ∧ (∀ (table : String) (db : List TargetRow) (fks : List (Option Int)),
        (populateMulti table db fks).1 = [FollowUp.byMembership table fks])
    ∧ (∀ (table : String) (db : List TargetRow) (fks : List (Option Int)) (i : Nat),
        fks.get? i = some none →
        (populateMulti table db fks).2.get? i = some none) := by
  refine ⟨?_, ?_, ?_⟩
  · intro table db
    unfold populateSingle
    simp
  · intro table db fks
    rfl
  · intro table db fks i h
    show ((populateMulti table db fks).2).get? i = some none
    unfold populateMulti
    simp only
    rw [List.get?_map, h]
    simp

/-- Claim C2 amended, witness: the second result row of a concrete two-row
populate has a null foreign key and receives an absent populated value. -/
theorem populate_null_fk_absent_witness :
    (populateMulti "simple" [TargetRow.mk 1 []] [some 1, none]).2.get? 1 = some none :=
  populate_null_fk_absent.2.2 "simple" [TargetRow.mk 1 []] [some 1, none] 1 rfl

/-- Claim C8: a builder bound via usingConnection produces an event trace with
no pool lease and no release, while an unbound builder's trace is exactly one
lease, the statement, its settling, then exactly one release — identically on
the success and the failure path. -/
theorem connection_lease_release_discipline :
    (∀ (c : Nat) (fails : Bool),
        runWithConnection (some c) fails = [ConnEvent.query, ConnEvent.settle (!fails)])
    ∧ (∀ fails : Bool,
        runWithConnection none fails =
          [ConnEvent.poolConnect, ConnEvent.query, ConnEvent.settle (!fails),
           ConnEvent.release])
    ∧ (∀ (c : Nat) (fails : Bool),
        (runWithConnection (some c) fails).count ConnEvent.poolConnect = 0
          ∧ (runWithConnection (some c) fails).count ConnEvent.release = 0)
    ∧ (∀ fails : Bool,
        (runWithConnection none fails).count ConnEvent.poolConnect = 1
          ∧ (runWithConnection none fails).count ConnEvent.release = 1) := by
  refine ⟨fun c fails => rfl, fun fails => rfl, fun c fails => ?_, fun fails => ?_⟩
  · cases fails <;> exact ⟨rfl, rfl⟩
  · cases fails <;> exact ⟨rfl, rfl⟩

/-- Claim C7 counterexample: a registered numeric literal handler (42) makes
the failure path throw the NotImplemented error instead of rejecting with 42
verbatim, and a registered empty-string handler is treated as no handler (the
original error is rethrown) — refuting the claim that any literal handler
value is used verbatim as the rejection value. -/
theorem intercept_literal_handler_cex :
    interceptDispatch [(23505, Handler.hnum 42)] 23505 (ErrVal.native 23505) =
      Outcome.thrownNotImplemented
    ∧ Outcome.thrownNotImplemented ≠ Outcome.rejected (ErrVal.num 42)
    ∧ interceptDispatch [(23505, Handler.hstr "")] 23505 (ErrVal.native 23505) =
      Outcome.rejected (ErrVal.native 23505) :=
  ⟨rfl, by decide, rfl⟩

/-- Claim C7 amended: on failure the dispatch consults the handler registered
for the native code — no handler, or a falsy handler (empty string, zero,
false, null), rejects with the original error unchanged; a function handler
rejects with its return value; a non-empty string handler rejects with the
string verbatim; any other handler shape (non-zero number, true) throws
NotImplemented. -/
theorem intercept_dispatch_cases :
    (∀ (m : List (Nat × Handler)) (code : Nat) (err : ErrVal),
        lookupHandler m code = none →
        interceptDispatch m code err = Outcome.rejected err)
    ∧ (∀ (m : List (Nat × Handler)) (code : Nat) (err : ErrVal) (hd : Handler),
        lookupHandler m code = some hd → hd.truthy = false →
        interceptDispatch m code err = Outcome.rejected err)
    ∧ (∀ (m : List (Nat × Handler)) (code : Nat) (err : ErrVal) (f : ErrVal → ErrVal),
        lookupHandler m code = some (Handler.hfun f) →
        interceptDispatch m code err = Outcome.rejected (f err))
    ∧ (∀ (m : List (Nat × Handler)) (code : Nat) (err : ErrVal) (s : String),
        lookupHandler m code = some (Handler.hstr s) → s ≠ "" →
        interceptDispatch m code err = Outcome.rejected (ErrVal.str s))
    ∧ (∀ (m : List (Nat × Handler)) (code : Nat) (err : ErrVal) (n : Int),
        lookupHandler m code = some (Handler.hnum n) → n ≠ 0 →
        interceptDispatch m code err = Outcome.thrownNotImplemented)
    ∧ (∀ (m : List (Nat × Handler)) (code : Nat) (err : ErrVal),
        lookupHandler m code = some (Handler.hbool true) →
        interceptDispatch m code err = Outcome.thrownNotImplemented) := by
  refine ⟨?_, ?_, ?_, ?_, ?_, ?_⟩
  · intro m code err h
    unfold interceptDispatch
    rw [h]
  · intro m code err hd hl ht
    unfold interceptDispatch
    rw [hl]
    simp [ht]
  · intro m code err f hl
    unfold interceptDispatch
    rw [hl]
    simp [Handler.truthy]
  · intro m code err s hl hs
    unfold interceptDispatch
    rw [hl]
    simp [Handler.truthy, hs]
  · intro m code err n hl hn
    unfold interceptDispatch
    rw [hl]
    simp [Handler.truthy, hn]
  · intro m code err hl
    unfold interceptDispatch
    rw [hl]
    simp [Handler.truthy]

/-- Claim C7 amended, witness: a registered non-empty string handler is used
verbatim as the rejection value. -/
theorem intercept_dispatch_cases_witness :
    interceptDispatch [(23505, Handler.hstr "dup")] 23505 (ErrVal.native 23505) =
      Outcome.rejected (ErrVal.str "dup") :=
  intercept_dispatch_cases.2.2.2.1 [(23505, Handler.hstr "dup")] 23505
    (ErrVal.native 23505) "dup" rfl (by decide)

/-- Claim C4: per key/value pair of a mapping-form criteria, the compiled
clause is — null: IS NULL; sequence: a membership test against one bound array
parameter; operator mapping not-equal with null: IS NOT NULL; not-equal with a
sequence: a negated membership test; one of the five comparison operators with
a scalar: the comparison against the next bound parameter; any other operator:
the UnsupportedOperator failure; an operator mapping with more than one key:
the InvalidCriteria failure; a plain scalar: equality against the next bound
parameter — and the pair clauses of one mapping are joined with AND. -/
theorem compileWhere_mapping_cases :
    (∀ (k : String) (args : List Arg),
        compileWherePair k CritVal.null args = Except.ok (escCol k ++ " IS NULL", args))
    ∧ (∀ (k : String) (vs : List Scalar) (args : List Arg),
        compileWherePair k (CritVal.seq vs) args =
          Except.ok (escCol k ++ "=ANY($" ++ toString (args.length + 1) ++ ")",
            args ++ [Arg.arr vs]))
    ∧ (∀ (k : String) (args : List Arg),
        compileWherePair k (CritVal.opMap [("!=", OpVal.null)]) args =
          Except.ok (escCol k ++ " IS NOT NULL", args))
    ∧ (∀ (k : String) (vs : List Scalar) (args : List Arg),
        compileWherePair k (CritVal.opMap [("!=", OpVal.seq vs)]) args =
          Except.ok ("NOT ( " ++ escCol k ++ " = ANY( $" ++ toString (args.length + 1)
              ++ " ) )",
            args ++ [Arg.arr vs]))
    ∧ (∀ (k op : String) (v : Scalar) (args : List Arg),
        op = "<" ∨ op = ">" ∨ op = "<=" ∨ op = ">=" ∨ op = "!=" →
        compileWherePair k (CritVal.opMap [(op, OpVal.scalar v)]) args =
          Except.ok (escCol k ++ op ++ "$" ++ toString (args.length + 1),
            args ++ [Arg.scalar v]))
    ∧ (∀ (k op : String) (v : Scalar) (args : List Arg),
        ¬ (op = "<" ∨ op = ">" ∨ op = "<=" ∨ op = ">=" ∨ op = "!=") →
        compileWherePair k (CritVal.opMap [(op, OpVal.scalar v)]) args =
          Except.error (JsError.unsupportedOp op))
    ∧ (∀ (k : String) (pairs : List (String × OpVal)) (args : List Arg),
        1 < pairs.length →
        compileWherePair k (CritVal.opMap pairs) args =
          Except.error (JsError.invalidCriteria k))
    ∧ (∀ (k : String) (v : Scalar) (args : List Arg),
        compileWherePair k (CritVal.scalar v) args =
          Except.ok (escCol k ++ "=$" ++ toString (args.length + 1),
            args ++ [Arg.scalar v]))
    ∧ (∀ (pairs : List (String × CritVal)) (args : List Arg) (ws : List String)
          (args2 : List Arg),
        buildWherePairs pairs args = Except.ok (ws, args2) → ws ≠ [] →
        buildWhereQuery (Criteria.mapping pairs) args =
          Except.ok ("WHERE " ++ String.intercalate " AND " ws, args2)) := by
  refine ⟨fun k args => rfl, ?_, fun k args => rfl, ?_, ?_, ?_, ?_, ?_, ?_⟩
  · intro k vs args
    simp [compileWherePair]
  · intro k vs args
    simp [compileWherePair, compileOpPair]
  · intro k op v args hop
    rcases hop with rfl | rfl | rfl | rfl | rfl <;>
      simp [compileWherePair, compileOpPair, safeOp]
  · intro k op v args hop
    push_neg at hop
    obtain ⟨h1, h2, h3, h4, h5⟩ := hop
    simp [compileWherePair, compileOpPair, safeOp, h1, h2, h3, h4, h5]
  · intro k pairs args hlen
    rcases pairs with _ | ⟨p, _ | ⟨q, rest⟩⟩
    · simp at hlen
    · simp at hlen
    · rfl
  · intro k v args
    simp [compileWherePair]
  · intro pairs args ws args2 hb hne
    have hq : buildWhereQuery (Criteria.mapping pairs) args =
        match buildWherePairs pairs args with
        | Except.error e => Except.error e
        | Except.ok (wher, args3) =>
            if wher.isEmpty then Except.ok ("", args3)
            else Except.ok ("WHERE " ++ String.intercalate " AND " wher, args3) := rfl
    rw [hq, hb]
    cases ws with
    | nil => exact absurd rfl hne
    | cons w ws' => simp

/-- Claim C4, witness: concrete instances of the operator cases and of the
AND-join of a two-pair mapping. -/
theorem compileWhere_mapping_cases_witness :
    compileWherePair "age" (CritVal.opMap [("<", OpVal.scalar (Scalar.num 21))]) [] =
      Except.ok ("age<$1", [Arg.scalar (Scalar.num 21)])
    ∧ compileWherePair "age" (CritVal.opMap [("~", OpVal.scalar (Scalar.num 21))]) [] =
      Except.error (JsError.unsupportedOp "~")
    ∧ compileWherePair "age"
        (CritVal.opMap [("<", OpVal.scalar (Scalar.num 1)),
                        (">", OpVal.scalar (Scalar.num 9))]) [] =
      Except.error (JsError.invalidCriteria "age")
    ∧ buildWhereQuery
        (Criteria.mapping [("name", CritVal.null), ("age", CritVal.scalar (Scalar.num 3))])
        [] =
      Except.ok ("WHERE " ++ String.intercalate " AND " ["name IS NULL", "age=$1"],
        [Arg.scalar (Scalar.num 3)]) := by
  refine ⟨?_, ?_, ?_, ?_⟩
  · exact compileWhere_mapping_cases.2.2.2.2.1 "age" "<" (Scalar.num 21) [] (Or.inl rfl)
  · exact compileWhere_mapping_cases.2.2.2.2.2.1 "age" "~" (Scalar.num 21) [] (by decide)
  · exact compileWhere_mapping_cases.2.2.2.2.2.2.1 "age"
      [("<", OpVal.scalar (Scalar.num 1)), (">", OpVal.scalar (Scalar.num 9))] []
      (by decide)
  · exact compileWhere_mapping_cases.2.2.2.2.2.2.2.2
      [("name", CritVal.null), ("age", CritVal.scalar (Scalar.num 3))] []
      ["name IS NULL", "age=$1"] [Arg.scalar (Scalar.num 3)] rfl (by decide)

end Plimsoll
